import Mathlib

/-!
# nginx "fun" sample modules: response assembly

A shallow embedding of the two request handlers of the repository

* `nginx_http_fun_module_1/ngx_http_fun_module.c` (static body, namespace `Module1`),
* `nginx_http_fun_module_3/ngx_http_fun_module.c` (PNG body streamed by cairo through the
  write callback `copy_png_to_chain`, namespace `Module3`),

together with the location-configuration merge of the third module.

Conventions of the embedding:

* machine integers are `Nat`/`Int`; the `uint32_t` counter of `struct closure` is reduced
  modulo `2 ^ 32` at every update;
* a chunk `(data, length)` handed to the write callback is the list of its `length` bytes;
* the host server (nginx) and the encoder (cairo) are not part of the repository: the results of
  their calls are read from a `Host` record, and every call the handler makes is logged in order.
-/

set_option autoImplicit false

namespace NgxFun

/-! ## nginx and cairo constants (values of the nginx and cairo headers) -/

abbrev ngx_int_t := Int
abbrev ngx_uint_t := Nat
abbrev cairo_status_t := Nat

def NGX_OK : ngx_int_t := 0
def NGX_ERROR : ngx_int_t := -1

def NGX_HTTP_GET : ngx_uint_t := 0x0002
def NGX_HTTP_HEAD : ngx_uint_t := 0x0004

def NGX_HTTP_OK : ngx_uint_t := 200
def NGX_HTTP_NOT_ALLOWED : ngx_int_t := 405
def NGX_HTTP_INTERNAL_SERVER_ERROR : ngx_int_t := 500

def CAIRO_STATUS_SUCCESS : cairo_status_t := 0
def CAIRO_STATUS_NO_MEMORY : cairo_status_t := 1

/-- The sentinel `(ngx_uint_t) -1` of an unset numeric directive, for a 64-bit `ngx_uint_t`. -/
def NGX_CONF_UNSET_UINT : ngx_uint_t := 2 ^ 64 - 1

/-- Result of a configuration callback (`char *`): `NGX_CONF_OK` or `NGX_CONF_ERROR`. -/
inductive ngx_conf_rc where
  | NGX_CONF_OK
  | NGX_CONF_ERROR
  deriving DecidableEq

/-! ## Memory pool -/

/-- The request pool, seen through the outcomes of the allocations still to come
(`true`: the allocation returns a block, `false`: it returns `NULL`). A pool whose list is
exhausted serves every further allocation. -/
structure ngx_pool_t where
  outcomes : List Bool
  deriving DecidableEq

/-- Modelled from the spec: `ngx_pcalloc` of the host server, reduced to whether a block is
returned, and the pool afterwards. -/
def ngx_pcalloc (pool : ngx_pool_t) : Bool × ngx_pool_t :=
  match pool.outcomes with
  | [] => (true, ⟨[]⟩)
  | o :: rest => (o, ⟨rest⟩)

/-! ## Buffers and chains -/

/-- The fields of `ngx_buf_t` the modules write: the bytes in `[pos, last)`, `memory`
and `last_buf`. -/
structure ngx_buf_t where
  bytes : List Nat
  memory : Bool
  last_buf : Bool
  deriving DecidableEq

/-- A chain node `ngx_chain_t` with its `buf` pointer (`none` is `NULL`); `tail` is a node whose
`next` is `NULL`, `link` a node whose `next` points to the rest of the chain. -/
inductive ngx_chain_t where
  | tail (buf : Option ngx_buf_t)
  | link (buf : Option ngx_buf_t) (next : ngx_chain_t)
  deriving DecidableEq

namespace ngx_chain_t

/-- The `buf` field of the head node. -/
def buf : ngx_chain_t → Option ngx_buf_t
  | tail b => b
  | link b _ => b

/-- Assignment `chain->buf = b` on the head node. -/
def set_buf : ngx_chain_t → ngx_buf_t → ngx_chain_t
  | tail _, b => tail (some b)
  | link _ next, b => link (some b) next

/-- The loop `while (ch->next) ch = ch->next;` followed by the attachment of a fresh node
`{ buf = b, next = NULL }` to the node it stops at. -/
def attach : ngx_chain_t → ngx_buf_t → ngx_chain_t
  | tail b0, b => link b0 (tail (some b))
  | link b0 next, b => link b0 (attach next b)

/-- The `buf` pointers of the nodes, following `next` from the head. -/
def nodes : ngx_chain_t → List (Option ngx_buf_t)
  | tail b => [b]
  | link b next => b :: nodes next

/-- The buffers reachable from the head, in order (nodes whose `buf` is `NULL` carry none). -/
def bufs (ch : ngx_chain_t) : List ngx_buf_t :=
  ch.nodes.filterMap id

/-- The bytes of the chain read from the head. -/
def bytes (ch : ngx_chain_t) : List Nat :=
  (ch.bufs.map ngx_buf_t.bytes).flatten

/-- Total byte count of the buffers of the chain. -/
def size (ch : ngx_chain_t) : Nat :=
  (ch.bufs.map (fun b => b.bytes.length)).sum

/-- The `buf` pointer of the last node reachable from the head. -/
def last_node : ngx_chain_t → Option ngx_buf_t
  | tail b => b
  | link _ next => last_node next

/-- Number of nodes whose buffer has `last_buf` set. -/
def flagged (ch : ngx_chain_t) : Nat :=
  (ch.bufs.filter (fun b => b.last_buf)).length

end ngx_chain_t

/-! ## Requests, the host server and the call log -/

/-- The fields of `r->headers_out` written by the handlers. -/
structure ngx_http_headers_out_t where
  status : ngx_uint_t
  content_type : String
  content_type_len : Nat
  content_length_n : Int
  deriving DecidableEq

/-- The fields of `ngx_http_request_t` read by the handlers on entry. -/
structure ngx_http_request_t where
  method : ngx_uint_t
  headers_out : ngx_http_headers_out_t
  pool : ngx_pool_t
  deriving DecidableEq

/-- The encoder's behaviour on a drawn surface: the chunks it has for the write callback, and
the status it reports once every chunk has been accepted. -/
structure png_stream where
  chunks : List (List Nat)
  status : cairo_status_t
  deriving DecidableEq

/-- Modelled from the spec: the host server and the external encoder, given by what their calls
answer during one request: `ngx_http_discard_request_body`, `ngx_http_send_header` (its status,
and `r->header_only` as read after it), `ngx_http_output_filter`, and the PNG stream cairo
produces for the surface drawn with a given radius. -/
structure Host where
  discard_request_body : ngx_int_t
  send_header : ngx_int_t
  header_only : Bool
  output_filter : ngx_int_t
  png : ngx_uint_t → png_stream

/-- One call made by a handler to the host server or to the encoder. -/
inductive Call where
  | discard_request_body
  | write_to_png_stream (written : List (List Nat)) (status : cairo_status_t)
  | send_header (headers : ngx_http_headers_out_t)
  | output_filter (out : ngx_chain_t)
  deriving DecidableEq

/-- What a handler run leaves behind: its return value, the calls it made, in order, and
`r->headers_out`. -/
structure Outcome where
  rc : ngx_int_t
  calls : List Call
  headers_out : ngx_http_headers_out_t
  deriving DecidableEq

/-- The calls that emit something to the client. -/
def Call.emits : Call → Bool
  | .send_header _ => true
  | .output_filter _ => true
  | _ => false

/-! ## Module 1: static body -/

namespace Module1

/-- The array `ngx_fun_string[] = "This is fun!"` without its terminating zero. -/
def ngx_fun_string : List Nat :=
  [84, 104, 105, 115, 32, 105, 115, 32, 102, 117, 110, 33]

/-- Handler `ngx_http_fun_handler` of `nginx_http_fun_module_1`. -/
def ngx_http_fun_handler (h : Host) (r : ngx_http_request_t) : Outcome :=
  if r.method &&& (NGX_HTTP_GET ||| NGX_HTTP_HEAD) = 0 then
    ⟨NGX_HTTP_NOT_ALLOWED, [], r.headers_out⟩
  else
    let rc := h.discard_request_body
    if rc ≠ NGX_OK then
      ⟨rc, [.discard_request_body], r.headers_out⟩
    else
      let h1 : ngx_http_headers_out_t :=
        { r.headers_out with content_type_len := 9, content_type := "text/html" }
      if r.method = NGX_HTTP_HEAD then
        let h2 : ngx_http_headers_out_t :=
          { h1 with status := NGX_HTTP_OK, content_length_n := ngx_fun_string.length }
        ⟨h.send_header, [.discard_request_body, .send_header h2], h2⟩
      else
        let b := ngx_pcalloc r.pool
        if b.1 = false then
          ⟨NGX_HTTP_INTERNAL_SERVER_ERROR, [.discard_request_body], h1⟩
        else
          let out : ngx_chain_t :=
            .tail (some { bytes := ngx_fun_string, memory := true, last_buf := true })
          let h2 : ngx_http_headers_out_t :=
            { h1 with status := NGX_HTTP_OK, content_length_n := ngx_fun_string.length }
          let rc := h.send_header
          if rc = NGX_ERROR ∨ rc > NGX_OK ∨ h.header_only = true then
            ⟨rc, [.discard_request_body, .send_header h2], h2⟩
          else
            ⟨h.output_filter,
              [.discard_request_body, .send_header h2, .output_filter out], h2⟩

end Module1

/-! ## Module 3: body streamed by the encoder -/

namespace Module3

/-- Location configuration `ngx_http_fun_loc_conf_t`. -/
structure ngx_http_fun_loc_conf_t where
  radius : ngx_uint_t
  deriving DecidableEq

/-- Function `ngx_http_fun_create_loc_conf`, on a successful allocation. -/
def ngx_http_fun_create_loc_conf : ngx_http_fun_loc_conf_t :=
  { radius := NGX_CONF_UNSET_UINT }

/-- Modelled from the spec: the host macro `ngx_conf_merge_uint_value(conf, prev, default)`:
the child's value wins unless unset, else the parent's, else the default. -/
def ngx_conf_merge_uint_value (conf prev default : ngx_uint_t) : ngx_uint_t :=
  if conf = NGX_CONF_UNSET_UINT then
    (if prev = NGX_CONF_UNSET_UINT then default else prev)
  else conf

/-- Function `ngx_http_fun_merge_loc_conf`: the result, and the child configuration after it. -/
def ngx_http_fun_merge_loc_conf (parent child : ngx_http_fun_loc_conf_t) :
    ngx_conf_rc × ngx_http_fun_loc_conf_t :=
  let conf : ngx_http_fun_loc_conf_t :=
    { radius := ngx_conf_merge_uint_value child.radius parent.radius 100 }
  if conf.radius < 1 then (.NGX_CONF_ERROR, conf)
  else if conf.radius > 1000 then (.NGX_CONF_ERROR, conf)
  else (.NGX_CONF_OK, conf)

/-- The state reached through `struct closure`: the pool of request `r`, the chain, and the
`uint32_t` byte counter. -/
structure closure where
  pool : ngx_pool_t
  chain : ngx_chain_t
  length : Nat
  deriving DecidableEq

/-- The buffer the callback fills in: `ngx_memcpy(d, data, length)`, `pos = d`,
`last = d + length`, `memory = 1`, `last_buf = 1`. -/
def copy_buf (data : List Nat) : ngx_buf_t :=
  { bytes := data, memory := true, last_buf := true }

/-- Write callback `copy_png_to_chain(closure, data, length)`: the status returned and the
closure afterwards. -/
def copy_png_to_chain (c : closure) (data : List Nat) : cairo_status_t × closure :=
  let b := ngx_pcalloc c.pool
  let d := ngx_pcalloc b.2
  let c1 : closure := { c with pool := d.2, length := (c.length + data.length) % 2 ^ 32 }
  if b.1 = false ∨ d.1 = false then
    (CAIRO_STATUS_NO_MEMORY, c1)
  else if c1.chain.buf = none then
    (CAIRO_STATUS_SUCCESS, { c1 with chain := c1.chain.set_buf (copy_buf data) })
  else
    let n := ngx_pcalloc d.2
    if n.1 = false then
      (CAIRO_STATUS_NO_MEMORY, { c1 with pool := n.2 })
    else
      (CAIRO_STATUS_SUCCESS, { c1 with pool := n.2, chain := c1.chain.attach (copy_buf data) })

/-- Modelled from the spec: the external encoder `cairo_surface_write_to_png_stream`: it hands
its chunks to the write callback one after the other, gives up at the first status other than
success and returns that status, and otherwise returns its own status. The result also lists the
chunks that were handed to the callback. -/
def cairo_surface_write_to_png_stream (status : cairo_status_t) :
    List (List Nat) → closure → cairo_status_t × closure × List (List Nat)
  | [], c => (status, c, [])
  | data :: rest, c =>
    let w := copy_png_to_chain c data
    if w.1 ≠ CAIRO_STATUS_SUCCESS then (w.1, w.2, [data])
    else
      let more := cairo_surface_write_to_png_stream status rest w.2
      (more.1, more.2.1, data :: more.2.2)

/-- A sequence of invocations of the write callback, each one made whatever the previous ones
returned: the statuses in order and the closure at the end. -/
def invocations : List (List Nat) → closure → List cairo_status_t × closure
  | [], c => ([], c)
  | data :: rest, c =>
    let w := copy_png_to_chain c data
    let tl := invocations rest w.2
    (w.1 :: tl.1, tl.2)

/-- The closure `{ r, &out, 0 }` once `out.buf = NULL; out.next = NULL;` has run. -/
def closure.init (pool : ngx_pool_t) : closure :=
  { pool := pool, chain := .tail none, length := 0 }

/-- Handler `ngx_http_fun_handler` of `nginx_http_fun_module_3`. -/
def ngx_http_fun_handler (h : Host) (cglcf : ngx_http_fun_loc_conf_t)
    (r : ngx_http_request_t) : Outcome :=
  if r.method &&& (NGX_HTTP_GET ||| NGX_HTTP_HEAD) = 0 then
    ⟨NGX_HTTP_NOT_ALLOWED, [], r.headers_out⟩
  else
    let rc := h.discard_request_body
    if rc ≠ NGX_OK then
      ⟨rc, [.discard_request_body], r.headers_out⟩
    else
      let surface := h.png cglcf.radius
      let png :=
        cairo_surface_write_to_png_stream surface.status surface.chunks (closure.init r.pool)
      let c := png.2.1
      if png.1 ≠ CAIRO_STATUS_SUCCESS then
        ⟨NGX_HTTP_INTERNAL_SERVER_ERROR,
          [.discard_request_body, .write_to_png_stream png.2.2 png.1], r.headers_out⟩
      else
        let h2 : ngx_http_headers_out_t :=
          { content_type_len := 9, content_type := "image/png",
            status := NGX_HTTP_OK, content_length_n := c.length }
        let rc := h.send_header
        if rc = NGX_ERROR ∨ rc > NGX_OK ∨ h.header_only = true ∨ r.method = NGX_HTTP_HEAD then
          ⟨rc, [.discard_request_body, .write_to_png_stream png.2.2 png.1, .send_header h2], h2⟩
        else
          ⟨h.output_filter,
            [.discard_request_body, .write_to_png_stream png.2.2 png.1, .send_header h2,
              .output_filter c.chain], h2⟩

end Module3

end NgxFun

/-! ## Definitions used to state the properties -/

namespace NgxFun

namespace ngx_chain_t

/-- The chain `ch` is the one the write callback builds from the buffers `bs`: the untouched
head `{ buf = NULL, next = NULL }` when there is none yet, and otherwise one node per buffer,
in order. -/
def Holds (ch : ngx_chain_t) (bs : List ngx_buf_t) : Prop :=
  (bs = [] ∧ ch = tail none) ∨ (bs ≠ [] ∧ ch.nodes = bs.map some)

end ngx_chain_t

namespace Module3

/-- Sum of the lengths of a sequence of chunks. -/
def total (chunks : List (List Nat)) : Nat :=
  (chunks.map List.length).sum

/-- The resolved radius in the words of the specification: the child's value, else the
parent's, else the default 100. -/
def resolved_radius (parent child : ngx_http_fun_loc_conf_t) : ngx_uint_t :=
  if child.radius ≠ NGX_CONF_UNSET_UINT then child.radius
  else if parent.radius ≠ NGX_CONF_UNSET_UINT then parent.radius
  else 100

end Module3

end NgxFun

/-! ## Concrete requests and hosts -/

namespace NgxFun.Examples

open Module3

/-- Output headers of a request nothing has been written to yet. -/
def fresh_headers : ngx_http_headers_out_t := ⟨0, "", 0, -1⟩

/-- A request with the given method word and a pool that fails as listed. -/
def request (method : ngx_uint_t) (outcomes : List Bool) : ngx_http_request_t :=
  ⟨method, fresh_headers, ⟨outcomes⟩⟩

/-- The method word `NGX_HTTP_POST`. -/
def NGX_HTTP_POST : ngx_uint_t := 0x0008

/-- A host on which every call succeeds and the encoder streams the given chunks. -/
def host (chunks : List (List Nat)) : Host :=
  ⟨NGX_OK, NGX_OK, false, NGX_OK, fun _ => ⟨chunks, CAIRO_STATUS_SUCCESS⟩⟩

/-- A host whose `ngx_http_discard_request_body` answers `rc`. -/
def host_discarding (rc : ngx_int_t) : Host :=
  ⟨rc, NGX_OK, false, NGX_OK, fun _ => ⟨[[137, 80], [78, 71]], CAIRO_STATUS_SUCCESS⟩⟩

/-- The default configuration, radius 100. -/
def conf : ngx_http_fun_loc_conf_t := ⟨100⟩

/-- Three small chunks. -/
def small : List (List Nat) := [[137, 80], [78], [71, 13, 10]]

/-- Two chunks of `2 ^ 31` bytes each: `2 ^ 32` bytes in all. -/
def wide : List (List Nat) := [List.replicate (2 ^ 31) 0, List.replicate (2 ^ 31) 0]

end NgxFun.Examples

/-! ## Facts about chains -/

namespace NgxFun

namespace ngx_chain_t

theorem nodes_eq_buf_cons (ch : ngx_chain_t) : ∃ rest, ch.nodes = ch.buf :: rest := by
  cases ch with
  | tail b => exact ⟨[], rfl⟩
  | link b next => exact ⟨next.nodes, rfl⟩

theorem nodes_attach (ch : ngx_chain_t) (b : ngx_buf_t) :
    (ch.attach b).nodes = ch.nodes ++ [some b] := by
  induction ch with
  | tail b0 => rfl
  | link b0 next ih => simp [attach, nodes, ih]

theorem last_node_eq_getLast (ch : ngx_chain_t) : ch.nodes.getLast? = some ch.last_node := by
  induction ch with
  | tail b => rfl
  | link b next ih =>
    obtain ⟨rest, hrest⟩ := nodes_eq_buf_cons next
    simp only [nodes, last_node]
    rw [hrest, List.getLast?_cons_cons, ← hrest, ih]

theorem holds_init : Holds (tail none) [] := Or.inl ⟨rfl, rfl⟩

theorem holds_buf_eq_none_iff {ch : ngx_chain_t} {bs : List ngx_buf_t} (hc : Holds ch bs) :
    ch.buf = none ↔ bs = [] := by
  rcases hc with ⟨h1, h2⟩ | ⟨h1, h2⟩
  · subst h1 h2; simp [buf]
  · obtain ⟨rest, hrest⟩ := nodes_eq_buf_cons ch
    rw [hrest] at h2
    cases bs with
    | nil => exact absurd rfl h1
    | cons b bs =>
      simp only [List.map_cons, List.cons.injEq] at h2
      simp [h2.1]

theorem holds_bufs_eq {ch : ngx_chain_t} {bs : List ngx_buf_t} (hc : Holds ch bs) :
    ch.bufs = bs := by
  rcases hc with ⟨h1, h2⟩ | ⟨h1, h2⟩
  · subst h1 h2; rfl
  · simp [bufs, h2, List.filterMap_map]

theorem holds_set_buf {ch : ngx_chain_t} (hc : Holds ch []) (b : ngx_buf_t) :
    Holds (ch.set_buf b) [b] := by
  rcases hc with ⟨_, h2⟩ | ⟨h1, _⟩
  · subst h2; exact Or.inr ⟨by simp, rfl⟩
  · exact absurd rfl h1

theorem holds_attach {ch : ngx_chain_t} {bs : List ngx_buf_t} (hc : Holds ch bs)
    (hne : bs ≠ []) (b : ngx_buf_t) : Holds (ch.attach b) (bs ++ [b]) := by
  rcases hc with ⟨h1, _⟩ | ⟨_, h2⟩
  · exact absurd h1 hne
  · exact Or.inr ⟨by simp, by simp [nodes_attach, h2]⟩

end ngx_chain_t

/-! ## Facts about the write callback and the encoder -/

namespace Module3

open ngx_chain_t

theorem no_memory_ne_success : CAIRO_STATUS_NO_MEMORY ≠ CAIRO_STATUS_SUCCESS := by decide

theorem copy_png_to_chain_length (c : closure) (data : List Nat) :
    (copy_png_to_chain c data).2.length = (c.length + data.length) % 2 ^ 32 := by
  unfold copy_png_to_chain
  simp only
  split_ifs <;> rfl

theorem copy_png_to_chain_status (c : closure) (data : List Nat) :
    (copy_png_to_chain c data).1 = CAIRO_STATUS_SUCCESS ∨
      (copy_png_to_chain c data).1 = CAIRO_STATUS_NO_MEMORY := by
  unfold copy_png_to_chain
  simp only
  split_ifs <;> simp

theorem copy_png_to_chain_failure (c : closure) (data : List Nat)
    (hs : (copy_png_to_chain c data).1 ≠ CAIRO_STATUS_SUCCESS) :
    (copy_png_to_chain c data).2.chain = c.chain := by
  unfold copy_png_to_chain at hs ⊢
  simp only at hs ⊢
  split_ifs at hs ⊢ <;> first | rfl | exact absurd rfl hs

theorem copy_png_to_chain_success (c : closure) (data : List Nat) (bs : List ngx_buf_t)
    (hc : Holds c.chain bs) (hs : (copy_png_to_chain c data).1 = CAIRO_STATUS_SUCCESS) :
    Holds (copy_png_to_chain c data).2.chain (bs ++ [copy_buf data]) := by
  unfold copy_png_to_chain at hs ⊢
  simp only at hs ⊢
  split_ifs at hs ⊢ with h1 h2 h3
  · exact absurd hs no_memory_ne_success
  · have hbs : bs = [] := (holds_buf_eq_none_iff hc).1 h2
    subst hbs
    exact holds_set_buf hc _
  · exact absurd hs no_memory_ne_success
  · exact holds_attach hc (fun hbs => h2 ((holds_buf_eq_none_iff hc).2 hbs)) _

theorem total_cons (data : List Nat) (rest : List (List Nat)) :
    total (data :: rest) = data.length + total rest := by
  simp [total]

theorem total_append (xs ys : List (List Nat)) : total (xs ++ ys) = total xs + total ys := by
  simp [total]

theorem chain_size_eq {ch : ngx_chain_t} {chunks : List (List Nat)}
    (hc : Holds ch (chunks.map copy_buf)) : ch.size = total chunks := by
  simp [ngx_chain_t.size, holds_bufs_eq hc, total, List.map_map, Function.comp_def, copy_buf]

theorem chain_bytes_eq {ch : ngx_chain_t} {chunks : List (List Nat)}
    (hc : Holds ch (chunks.map copy_buf)) : ch.bytes = chunks.flatten := by
  simp [ngx_chain_t.bytes, holds_bufs_eq hc, List.map_map, Function.comp_def, copy_buf]

theorem chain_nodes_eq {ch : ngx_chain_t} {chunks : List (List Nat)}
    (hc : Holds ch (chunks.map copy_buf)) (hne : chunks ≠ []) :
    ch.nodes = chunks.map (fun data => some (copy_buf data)) := by
  rcases hc with ⟨h1, _⟩ | ⟨_, h2⟩
  · exact absurd (List.map_eq_nil_iff.1 h1) hne
  · simp [h2, List.map_map, Function.comp_def]

theorem invocations_append (xs ys : List (List Nat)) (c : closure) :
    invocations (xs ++ ys) c =
      ((invocations xs c).1 ++ (invocations ys (invocations xs c).2).1,
        (invocations ys (invocations xs c).2).2) := by
  induction xs generalizing c with
  | nil => simp [invocations]
  | cons x xs ih => simp [invocations, ih]

theorem invocations_length (chunks : List (List Nat)) (c : closure) (hc : c.length < 2 ^ 32) :
    (invocations chunks c).2.length = (c.length + total chunks) % 2 ^ 32 := by
  induction chunks generalizing c with
  | nil =>
    simp only [invocations, total, List.map_nil, List.sum_nil, Nat.add_zero]
    exact (Nat.mod_eq_of_lt hc).symm
  | cons data rest ih =>
    have hlt : (copy_png_to_chain c data).2.length < 2 ^ 32 := by
      rw [copy_png_to_chain_length]; exact Nat.mod_lt _ (by norm_num)
    simp only [invocations]
    rw [ih _ hlt, copy_png_to_chain_length, total_cons, Nat.mod_add_mod, Nat.add_assoc]

theorem invocations_success (chunks : List (List Nat)) (c : closure) (bs : List ngx_buf_t)
    (hc : Holds c.chain bs)
    (hs : ∀ s ∈ (invocations chunks c).1, s = CAIRO_STATUS_SUCCESS) :
    Holds (invocations chunks c).2.chain (bs ++ chunks.map copy_buf) := by
  induction chunks generalizing c bs with
  | nil => simpa [invocations] using hc
  | cons data rest ih =>
    simp only [invocations, List.mem_cons, forall_eq_or_imp] at hs
    have h1 := copy_png_to_chain_success c data bs hc hs.1
    have h2 := ih _ _ h1 hs.2
    simpa [invocations] using h2

theorem write_to_png_stream_success (status : cairo_status_t) (chunks : List (List Nat))
    (c : closure) (bs : List ngx_buf_t) (hc : Holds c.chain bs) (hl : c.length < 2 ^ 32)
    (hs : (cairo_surface_write_to_png_stream status chunks c).1 = CAIRO_STATUS_SUCCESS) :
    status = CAIRO_STATUS_SUCCESS ∧
      (cairo_surface_write_to_png_stream status chunks c).2.2 = chunks ∧
      Holds (cairo_surface_write_to_png_stream status chunks c).2.1.chain
        (bs ++ chunks.map copy_buf) ∧
      (cairo_surface_write_to_png_stream status chunks c).2.1.length =
        (c.length + total chunks) % 2 ^ 32 := by
  induction chunks generalizing c bs with
  | nil =>
    simp only [cairo_surface_write_to_png_stream] at hs ⊢
    refine ⟨hs, trivial, by simpa using hc, ?_⟩
    simp only [total, List.map_nil, List.sum_nil, Nat.add_zero]
    exact (Nat.mod_eq_of_lt hl).symm
  | cons data rest ih =>
    simp only [cairo_surface_write_to_png_stream] at hs ⊢
    split_ifs at hs ⊢ with h1
    · exact absurd hs h1
    · have h1 : (copy_png_to_chain c data).1 = CAIRO_STATUS_SUCCESS := not_not.1 h1
      have hlt : (copy_png_to_chain c data).2.length < 2 ^ 32 := by
        rw [copy_png_to_chain_length]; exact Nat.mod_lt _ (by norm_num)
      obtain ⟨i1, i2, i3, i4⟩ := ih _ _ (copy_png_to_chain_success c data bs hc h1) hlt hs
      refine ⟨i1, by simp [i2], by simpa using i3, ?_⟩
      simp only [i4]
      rw [copy_png_to_chain_length, total_cons, Nat.mod_add_mod, Nat.add_assoc]

theorem invocations_prefix_success (xs ys : List (List Nat)) (c : closure)
    (hs : ∀ s ∈ (invocations (xs ++ ys) c).1, s = CAIRO_STATUS_SUCCESS) :
    ∀ s ∈ (invocations xs c).1, s = CAIRO_STATUS_SUCCESS := by
  intro s hmem
  apply hs
  rw [invocations_append]
  exact List.mem_append_left _ hmem

/-- Every buffer the callback has put on the chain carries `last_buf`: after successful
invocations there are as many flagged nodes as chunks. -/
theorem every_node_flagged (pool : ngx_pool_t) (chunks : List (List Nat))
    (hs : ∀ s ∈ (invocations chunks (closure.init pool)).1, s = CAIRO_STATUS_SUCCESS) :
    (invocations chunks (closure.init pool)).2.chain.flagged = chunks.length := by
  have hc := invocations_success chunks (closure.init pool) [] holds_init hs
  simp only [List.nil_append] at hc
  have hall : (chunks.map copy_buf).filter (fun b => b.last_buf) = chunks.map copy_buf := by
    apply List.filter_eq_self.2
    intro b hb
    obtain ⟨data, _, rfl⟩ := List.mem_map.1 hb
    rfl
  simp [ngx_chain_t.flagged, holds_bufs_eq hc, hall]

/-- What a run of the encoder that reports success leaves in the closure the handler set up. -/
theorem write_to_png_stream_init (status : cairo_status_t) (chunks : List (List Nat))
    (pool : ngx_pool_t)
    (hs : (cairo_surface_write_to_png_stream status chunks (closure.init pool)).1 =
      CAIRO_STATUS_SUCCESS) :
    (cairo_surface_write_to_png_stream status chunks (closure.init pool)).2.2 = chunks ∧
      Holds (cairo_surface_write_to_png_stream status chunks (closure.init pool)).2.1.chain
        (chunks.map copy_buf) ∧
      (cairo_surface_write_to_png_stream status chunks (closure.init pool)).2.1.length =
        total chunks % 2 ^ 32 := by
  have h := write_to_png_stream_success status chunks (closure.init pool) [] holds_init
    (by simp [closure.init]) hs
  simpa [closure.init] using h.2

/-- The path of the handler once the method check has passed, the request body has been
discarded and the encoder has reported success. -/
theorem handler_after_encoder (h : Host) (cglcf : ngx_http_fun_loc_conf_t)
    (r : ngx_http_request_t)
    (hm : r.method &&& (NGX_HTTP_GET ||| NGX_HTTP_HEAD) ≠ 0)
    (hd : h.discard_request_body = NGX_OK)
    (he : (cairo_surface_write_to_png_stream (h.png cglcf.radius).status
      (h.png cglcf.radius).chunks (closure.init r.pool)).1 = CAIRO_STATUS_SUCCESS) :
    ngx_http_fun_handler h cglcf r =
      if h.send_header = NGX_ERROR ∨ h.send_header > NGX_OK ∨ h.header_only = true ∨
          r.method = NGX_HTTP_HEAD then
        ⟨h.send_header,
          [.discard_request_body,
            .write_to_png_stream (h.png cglcf.radius).chunks CAIRO_STATUS_SUCCESS,
            .send_header ⟨200, "image/png", 9, (total (h.png cglcf.radius).chunks % 2 ^ 32 : Nat)⟩],
          ⟨200, "image/png", 9, (total (h.png cglcf.radius).chunks % 2 ^ 32 : Nat)⟩⟩
      else
        ⟨h.output_filter,
          [.discard_request_body,
            .write_to_png_stream (h.png cglcf.radius).chunks CAIRO_STATUS_SUCCESS,
            .send_header ⟨200, "image/png", 9, (total (h.png cglcf.radius).chunks % 2 ^ 32 : Nat)⟩,
            .output_filter (cairo_surface_write_to_png_stream (h.png cglcf.radius).status
              (h.png cglcf.radius).chunks (closure.init r.pool)).2.1.chain],
          ⟨200, "image/png", 9, (total (h.png cglcf.radius).chunks % 2 ^ 32 : Nat)⟩⟩ := by
  obtain ⟨e1, _, e3⟩ := write_to_png_stream_init _ _ _ he
  unfold ngx_http_fun_handler
  simp only [hm, hd, he, e1, e3, if_false, ne_eq, not_true_eq_false, NGX_HTTP_OK]

/-- The path of the handler when the encoder reports a failure. -/
theorem handler_encoder_failed (h : Host) (cglcf : ngx_http_fun_loc_conf_t)
    (r : ngx_http_request_t)
    (hm : r.method &&& (NGX_HTTP_GET ||| NGX_HTTP_HEAD) ≠ 0)
    (hd : h.discard_request_body = NGX_OK)
    (he : (cairo_surface_write_to_png_stream (h.png cglcf.radius).status
      (h.png cglcf.radius).chunks (closure.init r.pool)).1 ≠ CAIRO_STATUS_SUCCESS) :
    ngx_http_fun_handler h cglcf r =
      ⟨NGX_HTTP_INTERNAL_SERVER_ERROR,
        [.discard_request_body,
          .write_to_png_stream
            (cairo_surface_write_to_png_stream (h.png cglcf.radius).status
              (h.png cglcf.radius).chunks (closure.init r.pool)).2.2
            (cairo_surface_write_to_png_stream (h.png cglcf.radius).status
              (h.png cglcf.radius).chunks (closure.init r.pool)).1],
        r.headers_out⟩ := by
  unfold ngx_http_fun_handler
  simp only [hm, hd, he, if_false, if_true, ne_eq, not_true_eq_false, not_false_eq_true]

end Module3

/-! ## The method check -/

/-- A method word with a single bit set, other than the GET and HEAD bits, fails the check
`r->method & (NGX_HTTP_GET|NGX_HTTP_HEAD)`. -/
theorem single_bit_rejected (k : Nat) (hg : 2 ^ k ≠ NGX_HTTP_GET) (hh : 2 ^ k ≠ NGX_HTTP_HEAD) :
    2 ^ k &&& (NGX_HTTP_GET ||| NGX_HTTP_HEAD) = 0 := by
  have h6 : NGX_HTTP_GET ||| NGX_HTTP_HEAD = 6 := by decide
  rw [h6, Nat.and_comm, Nat.and_two_pow]
  have hb : Nat.testBit 6 k = false := by
    rcases k with _ | _ | _ | k
    · decide
    · exact absurd rfl hg
    · exact absurd rfl hh
    · apply Nat.testBit_lt_two_pow
      calc 6 < 2 ^ 3 := by norm_num
        _ ≤ 2 ^ (k + 1 + 1 + 1) := Nat.pow_le_pow_right (by norm_num) (by omega)
  simp [hb]

end NgxFun

/-! ## Sizes of the wide streams -/

namespace NgxFun.Examples

open Module3

theorem total_wide : total wide = 2 ^ 32 := by
  unfold wide
  rw [total_cons, total_cons, List.length_replicate]
  rfl

end NgxFun.Examples

/-! ## The claims -/

namespace NgxFun

open Module3

/-- C2: a request whose method word is a single method bit other than GET and HEAD is answered
405 by both handlers, with no call at all to `ngx_http_discard_request_body`, the encoder,
`ngx_http_send_header` or `ngx_http_output_filter`, and with the output headers untouched. -/
theorem method_not_allowed (h : Host) (cglcf : ngx_http_fun_loc_conf_t)
    (r : ngx_http_request_t) (hbit : ∃ k, r.method = 2 ^ k)
    (hg : r.method ≠ NGX_HTTP_GET) (hh : r.method ≠ NGX_HTTP_HEAD) :
    Module1.ngx_http_fun_handler h r = ⟨405, [], r.headers_out⟩ ∧
      Module3.ngx_http_fun_handler h cglcf r = ⟨405, [], r.headers_out⟩ := by
  obtain ⟨k, hk⟩ := hbit
  have hz : r.method &&& (NGX_HTTP_GET ||| NGX_HTTP_HEAD) = 0 := by
    rw [hk] at hg hh ⊢
    exact single_bit_rejected k hg hh
  constructor
  · unfold Module1.ngx_http_fun_handler
    simp only [hz, if_true, NGX_HTTP_NOT_ALLOWED]
  · unfold Module3.ngx_http_fun_handler
    simp only [hz, if_true, NGX_HTTP_NOT_ALLOWED]

/-- Witness of C2: a POST request. -/
theorem method_not_allowed_witness :
    Module1.ngx_http_fun_handler (Examples.host Examples.small)
        (Examples.request Examples.NGX_HTTP_POST []) = ⟨405, [], Examples.fresh_headers⟩ ∧
      Module3.ngx_http_fun_handler (Examples.host Examples.small) Examples.conf
        (Examples.request Examples.NGX_HTTP_POST []) = ⟨405, [], Examples.fresh_headers⟩ :=
  method_not_allowed (Examples.host Examples.small) Examples.conf
    (Examples.request Examples.NGX_HTTP_POST []) ⟨3, rfl⟩ (by decide) (by decide)

/-- C4: in the generated handler, once the method check has passed and the request body has
been discarded, every failure reported by the encoder call (its own, or the status the callback
returned part-way through the stream) makes the handler return 500; the only calls made are the
discard and the encoder call, so neither `ngx_http_send_header` nor `ngx_http_output_filter`
is called, and the output headers are left as they were. -/
theorem encoder_failure_is_500 (h : Host) (cglcf : ngx_http_fun_loc_conf_t)
    (r : ngx_http_request_t)
    (hm : r.method &&& (NGX_HTTP_GET ||| NGX_HTTP_HEAD) ≠ 0)
    (hd : h.discard_request_body = NGX_OK)
    (he : (cairo_surface_write_to_png_stream (h.png cglcf.radius).status
      (h.png cglcf.radius).chunks (closure.init r.pool)).1 ≠ CAIRO_STATUS_SUCCESS) :
    (Module3.ngx_http_fun_handler h cglcf r).rc = 500 ∧
      (Module3.ngx_http_fun_handler h cglcf r).calls =
        [.discard_request_body,
          .write_to_png_stream
            (cairo_surface_write_to_png_stream (h.png cglcf.radius).status
              (h.png cglcf.radius).chunks (closure.init r.pool)).2.2
            (cairo_surface_write_to_png_stream (h.png cglcf.radius).status
              (h.png cglcf.radius).chunks (closure.init r.pool)).1] ∧
      (∀ call ∈ (Module3.ngx_http_fun_handler h cglcf r).calls, call.emits = false) ∧
      (Module3.ngx_http_fun_handler h cglcf r).headers_out = r.headers_out := by
  rw [handler_encoder_failed h cglcf r hm hd he]
  refine ⟨rfl, rfl, ?_, rfl⟩
  intro call hc
  simp only [List.mem_cons, List.mem_singleton, List.not_mem_nil, or_false] at hc
  rcases hc with rfl | rfl <;> rfl

/-- Witness of C4: the pool runs dry inside the third invocation of the callback, which returns
`CAIRO_STATUS_NO_MEMORY` after two chunks were appended. -/
theorem encoder_failure_is_500_witness :
    (Module3.ngx_http_fun_handler (Examples.host Examples.small) Examples.conf
        (Examples.request NGX_HTTP_GET [true, true, true, true, true, true, false])).rc = 500 ∧
      (Module3.ngx_http_fun_handler (Examples.host Examples.small) Examples.conf
        (Examples.request NGX_HTTP_GET [true, true, true, true, true, true, false])).calls =
        [.discard_request_body,
          .write_to_png_stream [[137, 80], [78], [71, 13, 10]] CAIRO_STATUS_NO_MEMORY] := by
  have hw := encoder_failure_is_500 (Examples.host Examples.small) Examples.conf
    (Examples.request NGX_HTTP_GET [true, true, true, true, true, true, false])
    (by decide) rfl (by decide)
  exact ⟨hw.1, hw.2.1⟩

/-- C5: `ngx_http_fun_merge_loc_conf` leaves the resolved radius in the child configuration
and succeeds if and only if that radius lies in the inclusive range 1..1000; the values 1 and
1000 are accepted and the values 0 and 1001 rejected, whether they come from the child or are
inherited from the parent, and two unset scopes resolve to the accepted default 100. -/
theorem merge_loc_conf_range (parent child : ngx_http_fun_loc_conf_t) :
    ((ngx_http_fun_merge_loc_conf parent child).1 = .NGX_CONF_OK ↔
        1 ≤ resolved_radius parent child ∧ resolved_radius parent child ≤ 1000) ∧
      ((ngx_http_fun_merge_loc_conf parent child).1 = .NGX_CONF_ERROR ↔
        resolved_radius parent child < 1 ∨ 1000 < resolved_radius parent child) ∧
      (ngx_http_fun_merge_loc_conf parent child).2.radius = resolved_radius parent child ∧
      ngx_http_fun_merge_loc_conf parent ⟨1⟩ = (.NGX_CONF_OK, ⟨1⟩) ∧
      ngx_http_fun_merge_loc_conf parent ⟨1000⟩ = (.NGX_CONF_OK, ⟨1000⟩) ∧
      ngx_http_fun_merge_loc_conf parent ⟨0⟩ = (.NGX_CONF_ERROR, ⟨0⟩) ∧
      ngx_http_fun_merge_loc_conf parent ⟨1001⟩ = (.NGX_CONF_ERROR, ⟨1001⟩) ∧
      ngx_http_fun_merge_loc_conf ⟨1⟩ ngx_http_fun_create_loc_conf = (.NGX_CONF_OK, ⟨1⟩) ∧
      ngx_http_fun_merge_loc_conf ⟨1000⟩ ngx_http_fun_create_loc_conf =
        (.NGX_CONF_OK, ⟨1000⟩) ∧
      ngx_http_fun_merge_loc_conf ⟨0⟩ ngx_http_fun_create_loc_conf = (.NGX_CONF_ERROR, ⟨0⟩) ∧
      ngx_http_fun_merge_loc_conf ⟨1001⟩ ngx_http_fun_create_loc_conf =
        (.NGX_CONF_ERROR, ⟨1001⟩) ∧
      ngx_http_fun_merge_loc_conf ngx_http_fun_create_loc_conf ngx_http_fun_create_loc_conf =
        (.NGX_CONF_OK, ⟨100⟩) := by
  have hres : ngx_conf_merge_uint_value child.radius parent.radius 100 =
      resolved_radius parent child := by
    unfold ngx_conf_merge_uint_value resolved_radius
    split_ifs <;> first | rfl | contradiction
  have hchild : ∀ v : ngx_uint_t, v ≠ NGX_CONF_UNSET_UINT →
      ngx_conf_merge_uint_value v parent.radius 100 = v := by
    intro v hv
    unfold ngx_conf_merge_uint_value
    rw [if_neg hv]
  refine ⟨?_, ?_, ?_, ?_, ?_, ?_, ?_, by decide, by decide, by decide, by decide, by decide⟩
  rotate_left 3
  · simp only [ngx_http_fun_merge_loc_conf, hchild 1 (by decide)]; rfl
  · simp only [ngx_http_fun_merge_loc_conf, hchild 1000 (by decide)]; rfl
  · simp only [ngx_http_fun_merge_loc_conf, hchild 0 (by decide)]; rfl
  · simp only [ngx_http_fun_merge_loc_conf, hchild 1001 (by decide)]; rfl
  · unfold ngx_http_fun_merge_loc_conf
    simp only [hres]
    by_cases h1 : resolved_radius parent child < 1
    · rw [if_pos h1]
      change ngx_conf_rc.NGX_CONF_ERROR = ngx_conf_rc.NGX_CONF_OK ↔ _
      exact ⟨fun hc => (by cases hc), fun hc => absurd hc.1 (Nat.not_le.2 h1)⟩
    · rw [if_neg h1]
      by_cases h2 : resolved_radius parent child > 1000
      · rw [if_pos h2]
        change ngx_conf_rc.NGX_CONF_ERROR = ngx_conf_rc.NGX_CONF_OK ↔ _
        exact ⟨fun hc => (by cases hc), fun hc => absurd hc.2 (Nat.not_le.2 h2)⟩
      · rw [if_neg h2]
        exact ⟨fun _ => ⟨Nat.le_of_not_lt h1, Nat.le_of_not_lt h2⟩, fun _ => rfl⟩
  · unfold ngx_http_fun_merge_loc_conf
    simp only [hres]
    by_cases h1 : resolved_radius parent child < 1
    · rw [if_pos h1]
      exact ⟨fun _ => Or.inl h1, fun _ => rfl⟩
    · rw [if_neg h1]
      by_cases h2 : resolved_radius parent child > 1000
      · rw [if_pos h2]
        exact ⟨fun _ => Or.inr h2, fun _ => rfl⟩
      · rw [if_neg h2]
        change ngx_conf_rc.NGX_CONF_OK = ngx_conf_rc.NGX_CONF_ERROR ↔ _
        exact ⟨fun hc => (by cases hc), fun hc => (hc.elim h1 h2).elim⟩
  · unfold ngx_http_fun_merge_loc_conf
    simp only [hres]
    split_ifs <;> rfl

/-- C6, as amended: on every GET or HEAD request on which `ngx_http_discard_request_body`
returns a status other than `NGX_OK`, both handlers return exactly that status, having made no
other call and written no output header. -/
theorem discard_failure_is_returned (h : Host) (cglcf : ngx_http_fun_loc_conf_t)
    (r : ngx_http_request_t) (hm : r.method = NGX_HTTP_GET ∨ r.method = NGX_HTTP_HEAD)
    (hd : h.discard_request_body ≠ NGX_OK) :
    Module1.ngx_http_fun_handler h r =
        ⟨h.discard_request_body, [.discard_request_body], r.headers_out⟩ ∧
      Module3.ngx_http_fun_handler h cglcf r =
        ⟨h.discard_request_body, [.discard_request_body], r.headers_out⟩ := by
  have hz : r.method &&& (NGX_HTTP_GET ||| NGX_HTTP_HEAD) ≠ 0 := by
    rcases hm with hm | hm <;> rw [hm] <;> decide
  constructor
  · unfold Module1.ngx_http_fun_handler
    simp only [hz, hd, if_false, if_true, ne_eq, not_false_eq_true]
  · unfold Module3.ngx_http_fun_handler
    simp only [hz, hd, if_false, if_true, ne_eq, not_false_eq_true]

/-- Witness of C6: the discard answers 500 on a HEAD request. -/
theorem discard_failure_is_returned_witness :
    Module1.ngx_http_fun_handler (Examples.host_discarding 500)
        (Examples.request NGX_HTTP_HEAD []) =
        ⟨500, [.discard_request_body], Examples.fresh_headers⟩ ∧
      Module3.ngx_http_fun_handler (Examples.host_discarding 500) Examples.conf
        (Examples.request NGX_HTTP_HEAD []) =
        ⟨500, [.discard_request_body], Examples.fresh_headers⟩ :=
  discard_failure_is_returned (Examples.host_discarding 500) Examples.conf
    (Examples.request NGX_HTTP_HEAD []) (Or.inr rfl) (by decide)

/-- C6, counterexample: the discard answers 400 on a GET request and both handlers return 400,
not 500. -/
theorem discard_failure_not_500 :
    (Module1.ngx_http_fun_handler (Examples.host_discarding 400)
        (Examples.request NGX_HTTP_GET [])).rc = 400 ∧
      (Module3.ngx_http_fun_handler (Examples.host_discarding 400) Examples.conf
        (Examples.request NGX_HTTP_GET [])).rc = 400 ∧
      (Module1.ngx_http_fun_handler (Examples.host_discarding 400)
        (Examples.request NGX_HTTP_GET [])).rc ≠ NGX_HTTP_INTERNAL_SERVER_ERROR ∧
      (Module3.ngx_http_fun_handler (Examples.host_discarding 400) Examples.conf
        (Examples.request NGX_HTTP_GET [])).rc ≠ NGX_HTTP_INTERNAL_SERVER_ERROR := by
  decide

/-- C7, as amended: when the encoder completes successfully without having invoked the
callback, the generated handler sends headers with Content-Length 0; on a HEAD request, or when
`ngx_http_send_header` returns `NGX_ERROR` or a positive status, or when `header_only` is set,
it returns the result of `ngx_http_send_header` without calling `ngx_http_output_filter`; on
any other request (a GET whose headers went out) it hands the still-empty chain
`{ buf = NULL, next = NULL }` to `ngx_http_output_filter` and returns its result. -/
theorem empty_stream_response (h : Host) (cglcf : ngx_http_fun_loc_conf_t)
    (r : ngx_http_request_t) (hm : r.method = NGX_HTTP_GET ∨ r.method = NGX_HTTP_HEAD)
    (hd : h.discard_request_body = NGX_OK)
    (he : (cairo_surface_write_to_png_stream (h.png cglcf.radius).status
      (h.png cglcf.radius).chunks (closure.init r.pool)).1 = CAIRO_STATUS_SUCCESS)
    (hz : (cairo_surface_write_to_png_stream (h.png cglcf.radius).status
      (h.png cglcf.radius).chunks (closure.init r.pool)).2.2 = []) :
    Module3.ngx_http_fun_handler h cglcf r =
      if h.send_header = NGX_ERROR ∨ h.send_header > NGX_OK ∨ h.header_only = true ∨
          r.method = NGX_HTTP_HEAD then
        ⟨h.send_header,
          [.discard_request_body, .write_to_png_stream [] CAIRO_STATUS_SUCCESS,
            .send_header ⟨200, "image/png", 9, 0⟩],
          ⟨200, "image/png", 9, 0⟩⟩
      else
        ⟨h.output_filter,
          [.discard_request_body, .write_to_png_stream [] CAIRO_STATUS_SUCCESS,
            .send_header ⟨200, "image/png", 9, 0⟩, .output_filter (.tail none)],
          ⟨200, "image/png", 9, 0⟩⟩ := by
  have hacc : r.method &&& (NGX_HTTP_GET ||| NGX_HTTP_HEAD) ≠ 0 := by
    rcases hm with hm | hm <;> rw [hm] <;> decide
  have hpath := handler_after_encoder h cglcf r hacc hd he
  obtain ⟨e1, _, _⟩ := write_to_png_stream_init _ _ _ he
  have hnil : (h.png cglcf.radius).chunks = [] := e1.symm.trans hz
  rw [hnil] at hpath
  rw [hpath]
  rfl

/-- Witness of C7: a HEAD request and an encoder that writes nothing. -/
theorem empty_stream_response_witness :
    Module3.ngx_http_fun_handler (Examples.host []) Examples.conf
        (Examples.request NGX_HTTP_HEAD []) =
      ⟨NGX_OK,
        [.discard_request_body, .write_to_png_stream [] CAIRO_STATUS_SUCCESS,
          .send_header ⟨200, "image/png", 9, 0⟩],
        ⟨200, "image/png", 9, 0⟩⟩ :=
  empty_stream_response (Examples.host []) Examples.conf (Examples.request NGX_HTTP_HEAD [])
    (Or.inr rfl) rfl rfl rfl

/-- C7, counterexample: on a GET request for which the encoder succeeds without invoking the
callback, the handler does call `ngx_http_output_filter`, with the empty chain. -/
theorem empty_stream_get_sends_body :
    Module3.ngx_http_fun_handler (Examples.host []) Examples.conf
        (Examples.request NGX_HTTP_GET []) =
      ⟨NGX_OK,
        [.discard_request_body, .write_to_png_stream [] CAIRO_STATUS_SUCCESS,
          .send_header ⟨200, "image/png", 9, 0⟩, .output_filter (.tail none)],
        ⟨200, "image/png", 9, 0⟩⟩ := by
  decide

/-- C8, at the failing input: two successful invocations of `copy_png_to_chain` on the empty
chain leave a chain of two nodes whose buffers both have `last_buf` set, the one that is not
last included. -/
theorem two_chunks_two_terminal_flags :
    invocations [[137], [80]] (closure.init ⟨[]⟩) =
        ([CAIRO_STATUS_SUCCESS, CAIRO_STATUS_SUCCESS],
          ⟨⟨[]⟩, .link (some ⟨[137], true, true⟩) (.tail (some ⟨[80], true, true⟩)), 2⟩) ∧
      (invocations [[137], [80]] (closure.init ⟨[]⟩)).2.chain.nodes.length = 2 ∧
      (invocations [[137], [80]] (closure.init ⟨[]⟩)).2.chain.flagged = 2 ∧
      (invocations [[137], [80]] (closure.init ⟨[]⟩)).2.chain.last_node =
        some ⟨[80], true, true⟩ := by
  decide

/-- C9, as amended: after every sequence of invocations of `copy_png_to_chain` from the
closure the handler sets up, whatever status each returned, the counter is the sum modulo
`2 ^ 32` of the lengths of all chunks the callback was given, appended or not; when every
invocation returned success the chain holds exactly that many bytes, so the counter equals the
sum of the appended chunk lengths whenever that sum is below `2 ^ 32`; and one more invocation
does not decrease the counter as long as the sum stays below `2 ^ 32`. -/
theorem counter_is_sum_of_given (pool : ngx_pool_t) (chunks : List (List Nat)) :
    (invocations chunks (closure.init pool)).2.length = total chunks % 2 ^ 32 ∧
      ((∀ s ∈ (invocations chunks (closure.init pool)).1, s = CAIRO_STATUS_SUCCESS) →
        (invocations chunks (closure.init pool)).2.chain.size = total chunks ∧
        (total chunks < 2 ^ 32 →
          (invocations chunks (closure.init pool)).2.length =
            (invocations chunks (closure.init pool)).2.chain.size)) ∧
      (∀ data : List Nat, total (chunks ++ [data]) < 2 ^ 32 →
        (invocations chunks (closure.init pool)).2.length ≤
          (invocations (chunks ++ [data]) (closure.init pool)).2.length) := by
  have hlen : ∀ cs : List (List Nat),
      (invocations cs (closure.init pool)).2.length = total cs % 2 ^ 32 := by
    intro cs
    have h := invocations_length cs (closure.init pool) (by simp [closure.init])
    simpa [closure.init] using h
  refine ⟨hlen chunks, ?_, ?_⟩
  · intro hs
    have hc := invocations_success chunks (closure.init pool) [] ngx_chain_t.holds_init hs
    simp only [List.nil_append] at hc
    refine ⟨chain_size_eq hc, fun hlt => ?_⟩
    rw [hlen, chain_size_eq hc, Nat.mod_eq_of_lt hlt]
  · intro data hlt
    rw [hlen, hlen]
    rw [total_append] at hlt ⊢
    rw [Nat.mod_eq_of_lt hlt, Nat.mod_eq_of_lt (by omega)]
    omega

/-- Witness of C9: three chunks, all appended. -/
theorem counter_is_sum_of_given_witness :
    (invocations Examples.small (closure.init ⟨[]⟩)).2.length = 6 ∧
      (invocations Examples.small (closure.init ⟨[]⟩)).2.chain.size = 6 ∧
      (invocations Examples.small (closure.init ⟨[]⟩)).2.length ≤
        (invocations (Examples.small ++ [[26, 10]]) (closure.init ⟨[]⟩)).2.length := by
  have hw := counter_is_sum_of_given ⟨[]⟩ Examples.small
  exact ⟨hw.1, (hw.2.1 (by decide)).1, hw.2.2 [26, 10] (by decide)⟩

/-- C9, counterexample: an invocation that returns `CAIRO_STATUS_NO_MEMORY` has added the
3 bytes of its chunk to the counter and appended nothing; and after two chunks of `2 ^ 31`
bytes the counter, `2 ^ 31` after the first, is back to 0. -/
theorem counter_counts_what_was_not_appended :
    invocations [[1, 2, 3]] (closure.init ⟨[false]⟩) =
        ([CAIRO_STATUS_NO_MEMORY], ⟨⟨[]⟩, .tail none, 3⟩) ∧
      (invocations [[1, 2, 3]] (closure.init ⟨[false]⟩)).2.chain.size = 0 ∧
      (invocations [[1, 2, 3]] (closure.init ⟨[false]⟩)).2.length ≠
        (invocations [[1, 2, 3]] (closure.init ⟨[false]⟩)).2.chain.size ∧
      (invocations [List.replicate (2 ^ 31) 0] (closure.init ⟨[]⟩)).2.length = 2147483648 ∧
      (invocations Examples.wide (closure.init ⟨[]⟩)).2.length = 0 := by
  refine ⟨by decide, by decide, by decide, ?_, ?_⟩
  · rw [invocations_length _ _ (by decide), total_cons, List.length_replicate]
    rfl
  · rw [invocations_length _ _ (by decide), Examples.total_wide]
    rfl

/-- C10: when `n ≥ 1` invocations of `copy_png_to_chain` on the empty chain all return
success, the chain has exactly `n` nodes, the `i`-th holding a copy of exactly the bytes of the
`i`-th chunk, and its bytes read from the head are the chunks in order; every invocation of the
sequence has added one buffer behind those already there and left them as they were. -/
theorem chain_holds_chunks_in_order (pool : ngx_pool_t) (chunks : List (List Nat))
    (hne : chunks ≠ [])
    (hs : ∀ s ∈ (invocations chunks (closure.init pool)).1, s = CAIRO_STATUS_SUCCESS) :
    (invocations chunks (closure.init pool)).2.chain.nodes =
        chunks.map (fun data => some (copy_buf data)) ∧
      (invocations chunks (closure.init pool)).2.chain.nodes.length = chunks.length ∧
      (invocations chunks (closure.init pool)).2.chain.bytes = chunks.flatten ∧
      (∀ i (hi : i < chunks.length),
        (invocations chunks (closure.init pool)).2.chain.nodes[i]? =
          some (some ⟨chunks[i], true, true⟩)) ∧
      (∀ (before after : List (List Nat)) (data : List Nat),
        chunks = before ++ data :: after →
        (invocations (before ++ [data]) (closure.init pool)).2.chain.bufs =
          (invocations before (closure.init pool)).2.chain.bufs ++ [copy_buf data] ∧
        (invocations before (closure.init pool)).2.chain.bufs = before.map copy_buf) := by
  have hc := invocations_success chunks (closure.init pool) [] ngx_chain_t.holds_init hs
  simp only [List.nil_append] at hc
  have hnodes := chain_nodes_eq hc hne
  refine ⟨hnodes, by simp [hnodes], chain_bytes_eq hc, ?_, ?_⟩
  · intro i hi
    rw [hnodes, List.getElem?_map, List.getElem?_eq_getElem hi]
    rfl
  · intro before after data hsplit
    have hs1 : ∀ s ∈ (invocations (before ++ [data]) (closure.init pool)).1,
        s = CAIRO_STATUS_SUCCESS := by
      apply invocations_prefix_success (before ++ [data]) after
      rw [List.append_assoc, List.singleton_append, ← hsplit]
      exact hs
    have hs0 := invocations_prefix_success before [data] _ hs1
    have h1 := invocations_success _ (closure.init pool) [] ngx_chain_t.holds_init hs1
    have h0 := invocations_success _ (closure.init pool) [] ngx_chain_t.holds_init hs0
    simp only [List.nil_append] at h0 h1
    rw [ngx_chain_t.holds_bufs_eq h1, ngx_chain_t.holds_bufs_eq h0]
    exact ⟨by simp, rfl⟩

/-- Witness of C10: three chunks delivered with a pool that serves every allocation. -/
theorem chain_holds_chunks_in_order_witness :
    (invocations Examples.small (closure.init ⟨[]⟩)).2.chain.nodes =
        [some ⟨[137, 80], true, true⟩, some ⟨[78], true, true⟩,
          some ⟨[71, 13, 10], true, true⟩] ∧
      (invocations Examples.small (closure.init ⟨[]⟩)).2.chain.bytes =
        [137, 80, 78, 71, 13, 10] := by
  have hw := chain_holds_chunks_in_order ⟨[]⟩ Examples.small (by decide) (by decide)
  exact ⟨hw.1, hw.2.2.1⟩

end NgxFun
